import Mathlib

/-!
# wikidist crawler: fetch-and-parse pipeline and frontier refill

A shallow embedding of `pkg/crawler/fetcher.go` (`parseResponse`, `CrawlArticle`) and of
`pkg/crawler/crawler.go` (`NewCrawler`, `refillQueue`), followed by the properties proved
about them.

Conventions of the embedding

* A Go function that can stop in a run-time panic returns an `Outcome`: either `ret v`
  (the function returned `v`) or `panic site` (a failed type assertion `x.(T)` or a refused
  `make` raised a run-time panic; `site` names the source line).
* A Go `error` is an `Option String`: `none` is `nil`, `some msg` is an error with that text.
* A decoded JSON object (`map[string]interface{}`) is an association list read with
  `List.lookup`; a `nil` map is the empty list.  The `range` over the `pages` map visits the
  entries in list order (Go leaves the order unspecified; every order is some list).
* Logging and statsd counters have no effect on the values computed and are left out, except
  for the value handed to the `wikidist.queue.new_urls` counter, which is kept.
* The Store Port is an object with a state of its own (a type `σ`): its operation
  `NextsToVisit` takes the limit and the state and yields the answer and the next state, so
  that a call, and the limit it was made with, shows in the state of the store.
-/

namespace Wikidist

/-! ## Go values -/

/-- Result of running a Go function that may panic. -/
inductive Outcome (α : Type) where
  | ret (a : α)
  | panic (site : String)

/-- Smallest value of Go's `int` on a 64-bit platform. -/
def minInt : Int := -2 ^ 63

/-- Largest value of Go's `int` on a 64-bit platform. -/
def maxInt : Int := 2 ^ 63 - 1

/-- Two's-complement wrap-around of a mathematical integer into the range of `int`. -/
def wrapInt (x : Int) : Int := (x + 2 ^ 63) % 2 ^ 64 - 2 ^ 63

/-- Go's `a * b` on `int` operands. -/
def goMul (a b : Int) : Int := wrapInt (a * b)

/-- Go's conversion `int(f)` of a `float64`, the float being given by its exact rational
value: the fraction is discarded (truncation toward zero).  For a value outside the range
of `int` the Go specification leaves the result to the implementation; the amd64 result
(`minInt`) is used here. -/
def intOfFloat64 (f : ℚ) : Int :=
  let t := f.num.tdiv (f.den : Int)
  if minInt ≤ t ∧ t ≤ maxInt then t else minInt

/-- A value decoded by `encoding/json` into an `interface{}`: `nil`, `bool`, `float64`,
`string`, `[]interface{}` or `map[string]interface{}`. -/
inductive JSON where
  | null
  | bool (b : Bool)
  | num (f : ℚ)
  | str (s : String)
  | arr (xs : List JSON)
  | obj (kvs : List (String × JSON))

/-- A decoded JSON object, `map[string]interface{}`. -/
abbrev JObject := List (String × JSON)

/-- The map index expression `m[k]` with its presence flag: `none` when the key is absent. -/
def mapIndex (m : JObject) (k : String) : Option JSON := List.lookup k m

/-! ## pkg/db: Article -/

/-- Modelled from the spec: the `db.Article` record with the fields `fetcher.go` and
`crawler.go` use (`URL`, `Title`, `Description`, `Missing`, `LinkedArticles`, `PageID`);
the declaration in `pkg/db/main.go` under `src/` predates these fields. -/
inductive Article where
  | mk (URL : String) (Title : String) (Description : String) (Missing : Bool)
      (LinkedArticles : List Article) (PageID : Int)

namespace Article

/-- Field `URL`. -/
def URL : Article → String
  | mk u _ _ _ _ _ => u

/-- Field `Title`. -/
def Title : Article → String
  | mk _ t _ _ _ _ => t

/-- Field `Description`. -/
def Description : Article → String
  | mk _ _ d _ _ _ => d

/-- Field `Missing`. -/
def Missing : Article → Bool
  | mk _ _ _ m _ _ => m

/-- Field `LinkedArticles`. -/
def LinkedArticles : Article → List Article
  | mk _ _ _ _ l _ => l

/-- Field `PageID`. -/
def PageID : Article → Int
  | mk _ _ _ _ _ p => p

/-- The zero value `db.Article{}`. -/
def zero : Article := mk "" "" "" false [] 0

/-- The composite literal `db.Article{Title: link}`. -/
def stub (link : String) : Article := mk "" link "" false [] 0

end Article

/-! ## pkg/crawler/fetcher.go -/

/-- The values returned by `parseResponse`: missing, description, links, pageID, err. -/
abbrev ParseResult := Bool × String × List String × Int × Option String

/-- The loop `for _, value := range links` of `parseResponse` (lines 106-114), started with
the titles collected so far.  `ret (some ts)`: the loop ran to its end with titles `ts`;
`ret none`: the `default` case of the type switch was taken. -/
def linkTitles : List JSON → List String → Outcome (Option (List String))
  | [], titles => .ret (some titles)
  | .obj link :: rest, titles =>
    match mapIndex link "title" with
    | some (.str s) => linkTitles rest (titles ++ [s])
    | _ => .ret none
  | _ :: _, _ => .panic "fetcher.go:107 link is not a map"

/-- Body of the loop over `pages` in `parseResponse` (lines 84-116) for one entry `value`. -/
def parsePage (value : JSON) : Outcome ParseResult :=
  match value with
  | .obj page =>
    let pageID : Outcome Int :=
      match mapIndex page "pageid" with
      | none => .ret 0
      | some (.num id) => .ret (intOfFloat64 id)
      | some _ => .panic "fetcher.go:88 pageid is not a float64"
    match pageID with
    | .panic site => .panic site
    | .ret pageID =>
      if (mapIndex page "missing").isSome then
        .ret (true, "", [], 0, none)
      else
        let description : Outcome String :=
          match mapIndex page "description" with
          | none => .ret ""
          | some (.str desc) => .ret desc
          | some _ => .panic "fetcher.go:98 description is not a string"
        match description with
        | .panic site => .panic site
        | .ret description =>
          match mapIndex page "links" with
          | none => .ret (false, description, [], 0, none)
          | some (.arr links) =>
            match linkTitles links [] with
            | .panic site => .panic site
            | .ret none => .ret (true, "", [], 0, some "Incorrect title in answer")
            | .ret (some titles) => .ret (false, description, titles, pageID, none)
          | some _ => .panic "fetcher.go:105 links is not a slice"
  | _ => .panic "fetcher.go:84 page is not a map"

/-- The function `parseResponse` of `fetcher.go`. -/
def parseResponse (response : JObject) : Outcome ParseResult :=
  match mapIndex response "query" with
  | none => .ret (false, "", [], 0, some "Malformed response")
  | some (.obj query) =>
    match mapIndex query "pages" with
    | none => .ret (false, "", [], 0, some "Malformed response")
    | some (.obj pages) =>
      match pages with
      | [] => .ret (true, "", [], 0, some " No page in answer")
      | (_, value) :: _ => parsePage value
    | some _ => .panic "fetcher.go:83 pages is not a map"
  | some _ => .panic "fetcher.go:77 query is not a map"

/-- An `*http.Response`, reduced to what `CrawlArticle` reads: the status code and the bytes
`ioutil.ReadAll` obtains from the body. -/
structure Response where
  StatusCode : Int
  Body : String

/-- The request URL built by `CrawlArticle` (lines 22-32).  `url.Values.Encode` writes the
parameters sorted by key and escapes keys and values; `queryEscape` stands for
`url.QueryEscape` applied to the title, the other escapes are written out. -/
def requestURL (queryEscape : String → String) (title pfx : String) : String :=
  "https://" ++ pfx ++ ".wikipedia.org/w/api.php" ++ "?" ++
    "action=query&format=json&pllimit=500&plnamespace=0&prop=links%7Cdescription&titles=" ++
    queryEscape title

/-- The function `CrawlArticle` of `fetcher.go`.  `hg` is the `httpGetter` (its transport
error is `Except.error`), `unmarshal` is `json.Unmarshal` into a `map[string]interface{}`
(the `nil` map, that is the empty list, when the body does not decode to an object). -/
def CrawlArticle (queryEscape : String → String) (unmarshal : String → JObject)
    (title pfx : String) (hg : String → Except String Response) :
    Outcome (Article × Option String) :=
  match hg (requestURL queryEscape title pfx) with
  | .error err => .ret (Article.zero, some err)
  | .ok resp =>
    if resp.StatusCode < 200 ∨ resp.StatusCode > 299 then
      .ret (Article.zero, some "received non-2XX HTTP status code (possibly rate limited?)")
    else
      match parseResponse (unmarshal resp.Body) with
      | .panic site => .panic site
      | .ret (_, _, _, _, some err) => .ret (Article.zero, some err)
      | .ret (missing, description, links, pageID, none) =>
        .ret (Article.mk "" title description missing (links.map Article.stub) pageID, none)

/-! ## github.com/patrickmn/go-cache, as far as the crawler uses it -/

/-- The expiring key-value cache behind `c.seen`: for every key the instant (in nanoseconds)
at which it expires, `0` for an entry that never expires.  The newest entry of a key comes
first and is the one `List.lookup` finds. -/
structure Cache where
  defaultExpiration : Int
  items : List (String × Int)

/-- The presence flag returned by `Get(k)` at instant `now`: the key is stored and its
entry has not expired (`item.Expiration > 0 && now > item.Expiration` means expired). -/
def Cache.Get (c : Cache) (now : Int) (k : String) : Bool :=
  match List.lookup k c.items with
  | none => false
  | some e => !(decide (e > 0) && decide (now > e))

/-- The call `Set(k, struct, cache.DefaultExpiration)` at instant `now`: the entry expires
at `now + defaultExpiration` when the default duration is positive, never otherwise. -/
def Cache.Set (c : Cache) (now : Int) (k : String) : Cache :=
  { c with items :=
      (k, if c.defaultExpiration > 0 then now + c.defaultExpiration else 0) :: c.items }

/-- The call `cache.New(2*time.Minute, 5*time.Minute)`: an empty cache whose entries live
two minutes (the clean-up interval only reclaims entries `Get` already reports absent). -/
def Cache.New : Cache := { defaultExpiration := 2 * 60 * 1000000000, items := [] }

/-! ## pkg/crawler/crawler.go -/

/-- The `Crawler` struct.  A buffered channel is the list of the values it holds, oldest
first, together with its capacity.  The Store Port `database` is passed to the functions
that call it. -/
structure Crawler where
  nWorkers : Int
  startURL : String
  queue : List String
  queueCap : Nat
  results : List Article
  resultsCap : Nat
  seen : Cache

/-- The expression `make(chan T, size)`, giving the capacity of the new channel.  It panics
with `makechan: size out of range` when `size` is negative or the buffer is more than the
runtime allocates; `maxLen` is the largest buffer length the runtime allocates for the
element type (it depends on the platform and its memory). -/
def makechan (maxLen : Int) (size : Int) (site : String) : Outcome Nat :=
  if size < 0 ∨ size > maxLen then .panic site else .ret size.toNat

/-- The function `NewCrawler`.  `queueMax` and `resultsMax` are the largest buffer lengths
the runtime allocates for a `chan string` and for a `chan db.Article`. -/
def NewCrawler (queueMax resultsMax : Int) (nWorkers : Int) (startURL : String) :
    Outcome Crawler :=
  match makechan queueMax (goMul 100 nWorkers) "crawler.go:31 makechan: size out of range" with
  | .panic site => .panic site
  | .ret queueCap =>
    match makechan resultsMax (goMul 2 nWorkers)
        "crawler.go:32 makechan: size out of range" with
    | .panic site => .panic site
    | .ret resultsCap =>
      .ret
        { nWorkers := nWorkers
          startURL := startURL
          queue := []
          queueCap := queueCap
          results := []
          resultsCap := resultsCap
          seen := Cache.New }

/-- The send statement `ch <- v` on a buffered channel with no receiver waiting: the value
is appended when there is room; `none` when the buffer is full and the sender blocks. -/
def chanSend (ch : List String) (capacity : Nat) (v : String) : Option (List String) :=
  if ch.length < capacity then some (ch ++ [v]) else none

/-- State of the loop of `refillQueue`: the queue, the Seen-Set and the counter `newURLs`. -/
structure RefillLoop where
  queue : List String
  seen : Cache
  newURLs : Int

/-- The loop `for _, url := range urls` of `refillQueue` (lines 77-87), run at instant
`now` on a queue of capacity `capacity`.  The flag is `true` when the loop is stuck in the
send of line 86. -/
def refillLoop (now : Int) (capacity : Nat) : List String → RefillLoop → RefillLoop × Bool
  | [], st => (st, false)
  | url :: urls, st =>
    if st.seen.Get now url then
      refillLoop now capacity urls st
    else if st.queue.length ≥ capacity then
      (st, false)
    else
      let seen := st.seen.Set now url
      let newURLs := st.newURLs + 1
      match chanSend st.queue capacity url with
      | none => ({ queue := st.queue, seen := seen, newURLs := newURLs }, true)
      | some queue =>
        refillLoop now capacity urls { queue := queue, seen := seen, newURLs := newURLs }

/-- What one call of `refillQueue` did: the state in which it left the Store Port, whether
the call is stuck in a send on the full queue, the crawler afterwards, the value handed to
the `wikidist.queue.new_urls` counter (if line 88 was reached) and the error returned. -/
structure Refill (σ : Type) where
  database : σ
  blocked : Bool
  crawler : Crawler
  newURLs : Option Int
  err : Option String

/-- The method `refillQueue`, run at instant `now` with no other goroutine touching the
queue.  `database` is the state of the Store Port `c.database` and `NextsToVisit` its
operation of that name (called at line 71; the interface under `pkg/db/main.go` declares
only the older `NextToVisit`, so the operation is a parameter): from the limit and the state
of the store it gives the batch or an error, and the next state of the store. -/
def refillQueue {σ : Type} (NextsToVisit : Int → σ → Except String (List String) × σ)
    (now : Int) (c : Crawler) (database : σ) : Refill σ :=
  if (c.queue.length : Int) ≤ goMul 80 c.nWorkers then
    let answer := NextsToVisit (goMul 100 c.nWorkers) database
    match answer.1 with
    | .error err =>
      { database := answer.2, blocked := false, crawler := c, newURLs := none,
        err := some err }
    | .ok urls =>
      let out := refillLoop now c.queueCap urls { queue := c.queue, seen := c.seen, newURLs := 0 }
      { database := answer.2, blocked := out.2,
        crawler := { c with queue := out.1.queue, seen := out.1.seen },
        newURLs := if out.2 then none else some out.1.newURLs,
        err := none }
  else
    { database := database, blocked := false, crawler := c, newURLs := none, err := none }

/-- A Store Port that keeps a log of its calls: it answers as `NextsToVisit` does on the
first component of its state and appends the limit of every call to the second. -/
def recordingStore {σ : Type} (NextsToVisit : Int → σ → Except String (List String) × σ) :
    Int → σ × List Int → Except String (List String) × (σ × List Int) :=
  fun limit st =>
    ((NextsToVisit limit st.1).1, ((NextsToVisit limit st.1).2, st.2 ++ [limit]))

/-! ## Reference definitions -/

/-- The admission policy in the words of the specification: scan the candidates from left
to right; a candidate in the Seen-Set is skipped; the scan stops at the first candidate not
in the Seen-Set that is met while the queue is at capacity; every other candidate is marked
seen and appended.  `seen` is the Seen-Set, `len` the queue length; the result lists the
appended URLs in order. -/
def specAdmitted (capacity : Nat) : (String → Bool) → Nat → List String → List String
  | _, _, [] => []
  | seen, len, u :: rest =>
    if seen u then specAdmitted capacity seen len rest
    else if capacity ≤ len then []
    else u :: specAdmitted capacity (fun v => decide (v = u) || seen v) (len + 1) rest

/-! ## Sample states -/

/-- A crawler with one worker (queue capacity 100, low-water mark 80) whose queue holds
`queue` and whose Seen-Set holds `Cat`, marked at instant 0. -/
def sampleCrawler (queue : List String) : Crawler :=
  { nWorkers := 1
    startURL := "Cat"
    queue := queue
    queueCap := 100
    results := []
    resultsCap := 2
    seen := Cache.New.Set 0 "Cat" }

/-- A Store Port that answers every request with the same batch: `Cat`, then `A01` twice,
then `A02` to `A21`; its state counts the requests served. -/
def sampleStore : Int → Nat → Except String (List String) × Nat := fun _ served =>
  (.ok ["Cat", "A01", "A01", "A02", "A03", "A04", "A05", "A06", "A07", "A08", "A09", "A10",
        "A11", "A12", "A13", "A14", "A15", "A16", "A17", "A18", "A19", "A20", "A21"],
   served + 1)

/-! ## Auxiliary facts about the parser -/

/-- Converting a float that holds an integer within the range of `int` gives that integer. -/
theorem intOfFloat64_intCast (p : Int) (hp : minInt ≤ p ∧ p ≤ maxInt) :
    intOfFloat64 (p : ℚ) = p := by
  simp [intOfFloat64, hp]

/-- With `query` and `pages` objects, `parseResponse` is the loop body run on the first
page entry. -/
theorem parseResponse_first_page {response query : JObject} {k : String} {value : JSON}
    {rest : List (String × JSON)}
    (hquery : mapIndex response "query" = some (.obj query))
    (hpages : mapIndex query "pages" = some (.obj ((k, value) :: rest))) :
    parseResponse response = parsePage value := by
  simp [parseResponse, hquery, hpages]

/-- On link objects that all have a string title the loop collects the titles in order. -/
theorem linkTitles_of_titles (links : List JObject) (titles : List String)
    (h : List.Forall₂ (fun link s => mapIndex link "title" = some (.str s)) links titles)
    (acc : List String) :
    linkTitles (links.map JSON.obj) acc = .ret (some (acc ++ titles)) := by
  induction h generalizing acc with
  | nil => simp [linkTitles]
  | cons hls _ ih => simp [linkTitles, hls, ih]

/-- On link objects of which one has no string title the loop takes the `default` case. -/
theorem linkTitles_of_bad (links : List JObject)
    (hbad : ∃ link ∈ links, ∀ s, mapIndex link "title" ≠ some (.str s)) (acc : List String) :
    linkTitles (links.map JSON.obj) acc = .ret none := by
  induction links generalizing acc with
  | nil => simp at hbad
  | cons l ls ih =>
    simp only [List.map_cons, linkTitles]
    split
    · next s hs =>
      apply ih
      obtain ⟨link, hmem, hl⟩ := hbad
      rcases List.mem_cons.mp hmem with rfl | hmem
      · exact absurd hs (hl s)
      · exact ⟨link, hmem, hl⟩
    · rfl

/-! ## Properties of the fetch-and-parse pipeline -/

/-- C1. A well-formed page entry (no `missing` key, `pageid` the integer `p`, `description`
absent or the string `d`, `links` an array of objects with string titles `s1..sn`) makes
`parseResponse` return `(false, d, [s1..sn], p, nil)`, and `CrawlArticle` on a 2xx response
with that body return the populated `Article` for `title`, links in payload order, no
error. -/
theorem crawl_wellformed_article
    (queryEscape : String → String) (unmarshal : String → JObject) (title pfx : String)
    (hg : String → Except String Response) (resp : Response)
    (response query page : JObject) (k : String) (p : Int) (desc : Option String)
    (links : List JObject) (titles : List String)
    (hquery : mapIndex response "query" = some (.obj query))
    (hpages : mapIndex query "pages" = some (.obj [(k, .obj page)]))
    (hmissing : mapIndex page "missing" = none)
    (hpageid : mapIndex page "pageid" = some (.num (p : ℚ)))
    (hp : minInt ≤ p ∧ p ≤ maxInt)
    (hdesc : mapIndex page "description" = desc.map JSON.str)
    (hlinks : mapIndex page "links" = some (.arr (links.map JSON.obj)))
    (htitles : List.Forall₂ (fun link s => mapIndex link "title" = some (.str s)) links titles)
    (hget : hg (requestURL queryEscape title pfx) = .ok resp)
    (hstatus : 200 ≤ resp.StatusCode ∧ resp.StatusCode ≤ 299)
    (hbody : unmarshal resp.Body = response) :
    parseResponse response = .ret (false, desc.getD "", titles, p, none) ∧
    CrawlArticle queryEscape unmarshal title pfx hg =
      .ret (Article.mk "" title (desc.getD "") false (titles.map Article.stub) p, none) := by
  have hparse : parseResponse response = .ret (false, desc.getD "", titles, p, none) := by
    rw [parseResponse_first_page hquery hpages]
    have hl := linkTitles_of_titles links titles htitles []
    cases desc <;>
      simp [parsePage, hmissing, hpageid, hdesc, hlinks, hl, intOfFloat64_intCast p hp]
  refine ⟨hparse, ?_⟩
  have hs : ¬ (resp.StatusCode < 200 ∨ resp.StatusCode > 299) := by omega
  simp [CrawlArticle, hget, hs, hbody, hparse]

/-- The end-to-end scenario of the specification: title `Cat`, page id 1, description
`a feline`, links `Animal` and `Mammal`. -/
theorem crawl_wellformed_article_cat :
    parseResponse
        [("batchcomplete", .str ""),
         ("query", .obj [("pages", .obj [("1", .obj
            [("pageid", .num 1), ("ns", .num 0), ("title", .str "Cat"),
             ("description", .str "a feline"),
             ("links", .arr [.obj [("ns", .num 0), ("title", .str "Animal")],
                             .obj [("ns", .num 0), ("title", .str "Mammal")]])])])])]
      = .ret (false, "a feline", ["Animal", "Mammal"], 1, none) ∧
    CrawlArticle id
        (fun _ =>
          [("batchcomplete", .str ""),
           ("query", .obj [("pages", .obj [("1", .obj
              [("pageid", .num 1), ("ns", .num 0), ("title", .str "Cat"),
               ("description", .str "a feline"),
               ("links", .arr [.obj [("ns", .num 0), ("title", .str "Animal")],
                               .obj [("ns", .num 0), ("title", .str "Mammal")]])])])])])
        "Cat" "en" (fun _ => .ok { StatusCode := 200, Body := "" })
      = .ret (Article.mk "" "Cat" "a feline" false
                [Article.mk "" "Animal" "" false [] 0, Article.mk "" "Mammal" "" false [] 0] 1,
              none) :=
  crawl_wellformed_article id _ "Cat" "en" _ { StatusCode := 200, Body := "" } _
    [("pages", .obj [("1", .obj
            [("pageid", .num 1), ("ns", .num 0), ("title", .str "Cat"),
             ("description", .str "a feline"),
             ("links", .arr [.obj [("ns", .num 0), ("title", .str "Animal")],
                             .obj [("ns", .num 0), ("title", .str "Mammal")]])])])]
    [("pageid", .num 1), ("ns", .num 0), ("title", .str "Cat"),
             ("description", .str "a feline"),
             ("links", .arr [.obj [("ns", .num 0), ("title", .str "Animal")],
                             .obj [("ns", .num 0), ("title", .str "Mammal")]])]
    "1" 1 (some "a feline")
    [[("ns", .num 0), ("title", .str "Animal")], [("ns", .num 0), ("title", .str "Mammal")]]
    ["Animal", "Mammal"]
    rfl rfl rfl rfl (by decide) rfl rfl
    (.cons rfl (.cons rfl .nil)) rfl (by decide) rfl

/-- The missing-page short-circuit where the code performs it: when the single page entry
has a `missing` key and its `pageid` is absent or a number, then whatever else the entry
carries `parseResponse` returns `(true, "", [], 0, nil)` and `CrawlArticle` returns, with no
error, an `Article` for `title` with `Missing` set, empty `Description`, no
`LinkedArticles` and `PageID` 0. -/
theorem missing_short_circuit
    (queryEscape : String → String) (unmarshal : String → JObject) (title pfx : String)
    (hg : String → Except String Response) (resp : Response)
    (response query page : JObject) (k : String) (marker : JSON)
    (hquery : mapIndex response "query" = some (.obj query))
    (hpages : mapIndex query "pages" = some (.obj [(k, .obj page)]))
    (hmissing : mapIndex page "missing" = some marker)
    (hpageid : mapIndex page "pageid" = none ∨ ∃ f, mapIndex page "pageid" = some (.num f))
    (hget : hg (requestURL queryEscape title pfx) = .ok resp)
    (hstatus : 200 ≤ resp.StatusCode ∧ resp.StatusCode ≤ 299)
    (hbody : unmarshal resp.Body = response) :
    parseResponse response = .ret (true, "", [], 0, none) ∧
    CrawlArticle queryEscape unmarshal title pfx hg =
      .ret (Article.mk "" title "" true [] 0, none) := by
  have hparse : parseResponse response = .ret (true, "", [], 0, none) := by
    rw [parseResponse_first_page hquery hpages]
    rcases hpageid with h | ⟨f, h⟩ <;> simp [parsePage, hmissing, h]
  refine ⟨hparse, ?_⟩
  have hs : ¬ (resp.StatusCode < 200 ∨ resp.StatusCode > 299) := by omega
  simp [CrawlArticle, hget, hs, hbody, hparse]

/-- The short-circuit on an entry that carries a `missing` marker next to a numeric page
id, a description and a `links` value that are not read. -/
theorem missing_short_circuit_witness :
    parseResponse
        [("query", .obj [("pages", .obj [("-1", .obj
            [("pageid", .num 7), ("title", .str "Nope"), ("missing", .str ""),
             ("description", .num 3), ("links", .str "garbage")])])])]
      = .ret (true, "", [], 0, none) ∧
    CrawlArticle id
        (fun _ =>
          [("query", .obj [("pages", .obj [("-1", .obj
              [("pageid", .num 7), ("title", .str "Nope"), ("missing", .str ""),
               ("description", .num 3), ("links", .str "garbage")])])])])
        "Nope" "en" (fun _ => .ok { StatusCode := 200, Body := "" })
      = .ret (Article.mk "" "Nope" "" true [] 0, none) :=
  missing_short_circuit id _ "Nope" "en" _ { StatusCode := 200, Body := "" } _
    [("pages", .obj [("-1", .obj
            [("pageid", .num 7), ("title", .str "Nope"), ("missing", .str ""),
             ("description", .num 3), ("links", .str "garbage")])])]
    [("pageid", .num 7), ("title", .str "Nope"), ("missing", .str ""),
             ("description", .num 3), ("links", .str "garbage")]
    "-1" (.str "") rfl rfl rfl (Or.inr ⟨7, rfl⟩) rfl (by decide) rfl

/-- C2 fails on the code. A page entry with a `missing` key whose `pageid` is a string makes
`parseResponse`, and with it `CrawlArticle`, panic in the unchecked type assertion of
line 88, which runs before the `missing` test of line 92: no `(true, "", [], 0, nil)` and
no `Article` is returned. -/
theorem missing_with_string_pageid_panics :
    mapIndex [("pageid", .str "7"), ("missing", .str "")] "missing" = some (.str "") ∧
    parseResponse
        [("query", .obj [("pages", .obj [("-1", .obj
            [("pageid", .str "7"), ("missing", .str "")])])])]
      = .panic "fetcher.go:88 pageid is not a float64" ∧
    parseResponse
        [("query", .obj [("pages", .obj [("-1", .obj
            [("pageid", .str "7"), ("missing", .str "")])])])]
      ≠ .ret (true, "", [], 0, none) ∧
    CrawlArticle id
        (fun _ =>
          [("query", .obj [("pages", .obj [("-1", .obj
              [("pageid", .str "7"), ("missing", .str "")])])])])
        "Nope" "en" (fun _ => .ok { StatusCode := 200, Body := "" })
      = .panic "fetcher.go:88 pageid is not a float64" := by
  refine ⟨rfl, rfl, ?_, rfl⟩
  intro h
  have h2 : parseResponse
        [("query", .obj [("pages", .obj [("-1", .obj
            [("pageid", .str "7"), ("missing", .str "")])])])]
      = .panic "fetcher.go:88 pageid is not a float64" := rfl
  rw [h2] at h
  exact Outcome.noConfusion h

/-- The malformed-link abort where the code performs it: when the single page entry has no
`missing` key, a `pageid` that is absent or a number, a `description` that is absent or a
string, and a `links` array of objects of which at least one, at any position, has no
string `title`, `parseResponse` returns the error `Incorrect title in answer` with an empty
link list, and `CrawlArticle` returns that error with the zero `Article`: no title
collected before the bad link is returned. -/
theorem malformed_link_abort
    (queryEscape : String → String) (unmarshal : String → JObject) (title pfx : String)
    (hg : String → Except String Response) (resp : Response)
    (response query page : JObject) (k : String) (links : List JObject)
    (hquery : mapIndex response "query" = some (.obj query))
    (hpages : mapIndex query "pages" = some (.obj [(k, .obj page)]))
    (hmissing : mapIndex page "missing" = none)
    (hpageid : mapIndex page "pageid" = none ∨ ∃ f, mapIndex page "pageid" = some (.num f))
    (hdesc : mapIndex page "description" = none ∨
      ∃ d, mapIndex page "description" = some (.str d))
    (hlinks : mapIndex page "links" = some (.arr (links.map JSON.obj)))
    (hbad : ∃ link ∈ links, ∀ s, mapIndex link "title" ≠ some (.str s))
    (hget : hg (requestURL queryEscape title pfx) = .ok resp)
    (hstatus : 200 ≤ resp.StatusCode ∧ resp.StatusCode ≤ 299)
    (hbody : unmarshal resp.Body = response) :
    parseResponse response = .ret (true, "", [], 0, some "Incorrect title in answer") ∧
    CrawlArticle queryEscape unmarshal title pfx hg =
      .ret (Article.zero, some "Incorrect title in answer") := by
  have hparse : parseResponse response =
      .ret (true, "", [], 0, some "Incorrect title in answer") := by
    rw [parseResponse_first_page hquery hpages]
    have hl := linkTitles_of_bad links hbad []
    rcases hpageid with h | ⟨f, h⟩ <;> rcases hdesc with h' | ⟨d, h'⟩ <;>
      simp [parsePage, hmissing, h, h', hlinks, hl]
  refine ⟨hparse, ?_⟩
  have hs : ¬ (resp.StatusCode < 200 ∨ resp.StatusCode > 299) := by omega
  simp [CrawlArticle, hget, hs, hbody, hparse]

/-- The abort on a `links` array whose second entry has a number as `title`: the title
`Animal` of the first link is not returned. -/
theorem malformed_link_abort_witness :
    parseResponse
        [("query", .obj [("pages", .obj [("1", .obj
            [("pageid", .num 1), ("description", .str "a feline"),
             ("links", .arr [.obj [("title", .str "Animal")], .obj [("title", .num 5)],
                             .obj [("title", .str "Mammal")]])])])])]
      = .ret (true, "", [], 0, some "Incorrect title in answer") ∧
    CrawlArticle id
        (fun _ =>
          [("query", .obj [("pages", .obj [("1", .obj
              [("pageid", .num 1), ("description", .str "a feline"),
               ("links", .arr [.obj [("title", .str "Animal")], .obj [("title", .num 5)],
                               .obj [("title", .str "Mammal")]])])])])])
        "Cat" "en" (fun _ => .ok { StatusCode := 200, Body := "" })
      = .ret (Article.zero, some "Incorrect title in answer") :=
  malformed_link_abort id _ "Cat" "en" _ { StatusCode := 200, Body := "" } _
    [("pages", .obj [("1", .obj
            [("pageid", .num 1), ("description", .str "a feline"),
             ("links", .arr [.obj [("title", .str "Animal")], .obj [("title", .num 5)],
                             .obj [("title", .str "Mammal")]])])])]
    [("pageid", .num 1), ("description", .str "a feline"),
             ("links", .arr [.obj [("title", .str "Animal")], .obj [("title", .num 5)],
                             .obj [("title", .str "Mammal")]])]
    "1" [[("title", .str "Animal")], [("title", .num 5)], [("title", .str "Mammal")]]
    rfl rfl rfl (Or.inr ⟨1, rfl⟩) (Or.inr ⟨"a feline", rfl⟩) rfl
    ⟨[("title", .num 5)], by simp, fun s h => by
      have h2 : mapIndex [("title", JSON.num 5)] "title" = some (.num 5) := rfl
      rw [h2] at h
      exact JSON.noConfusion (Option.some.inj h)⟩
    rfl (by decide) rfl

/-- C3 fails on the code. A non-missing page entry whose `links` array holds an object with
a number as `title`, and whose `description` is a number, makes `parseResponse` and
`CrawlArticle` panic in the unchecked type assertion of line 98, before the links are
read: no error value is returned. -/
theorem malformed_link_with_bad_description_panics :
    mapIndex [("description", .num 3), ("links", .arr [.obj [("title", .num 5)]])] "missing"
      = none ∧
    parseResponse
        [("query", .obj [("pages", .obj [("1", .obj
            [("description", .num 3), ("links", .arr [.obj [("title", .num 5)]])])])])]
      = .panic "fetcher.go:98 description is not a string" ∧
    (∀ r : ParseResult, parseResponse
        [("query", .obj [("pages", .obj [("1", .obj
            [("description", .num 3), ("links", .arr [.obj [("title", .num 5)]])])])])]
      ≠ .ret r) ∧
    CrawlArticle id
        (fun _ =>
          [("query", .obj [("pages", .obj [("1", .obj
              [("description", .num 3), ("links", .arr [.obj [("title", .num 5)]])])])])])
        "Cat" "en" (fun _ => .ok { StatusCode := 200, Body := "" })
      = .panic "fetcher.go:98 description is not a string" := by
  refine ⟨rfl, rfl, ?_, rfl⟩
  intro r h
  have h2 : parseResponse
        [("query", .obj [("pages", .obj [("1", .obj
            [("description", .num 3), ("links", .arr [.obj [("title", .num 5)]])])])])]
      = .panic "fetcher.go:98 description is not a string" := rfl
  rw [h2] at h
  exact Outcome.noConfusion h

/-- C4. Zero-links tolerance: a page entry with no `missing` key and no `links` key, whose
`pageid` is absent or a number and whose `description` is absent or a string, makes
`parseResponse` return no error, `missing = false`, the description (empty when absent) and
an empty link list, and `CrawlArticle` return, with no error, an `Article` for `title` with
`Missing = false` and no linked articles. -/
theorem zero_links_tolerance
    (queryEscape : String → String) (unmarshal : String → JObject) (title pfx : String)
    (hg : String → Except String Response) (resp : Response)
    (response query page : JObject) (k : String) (desc : Option String)
    (hquery : mapIndex response "query" = some (.obj query))
    (hpages : mapIndex query "pages" = some (.obj [(k, .obj page)]))
    (hmissing : mapIndex page "missing" = none)
    (hlinks : mapIndex page "links" = none)
    (hpageid : mapIndex page "pageid" = none ∨ ∃ f, mapIndex page "pageid" = some (.num f))
    (hdesc : mapIndex page "description" = desc.map JSON.str)
    (hget : hg (requestURL queryEscape title pfx) = .ok resp)
    (hstatus : 200 ≤ resp.StatusCode ∧ resp.StatusCode ≤ 299)
    (hbody : unmarshal resp.Body = response) :
    (∃ pageID, parseResponse response = .ret (false, desc.getD "", [], pageID, none)) ∧
    ∃ a, CrawlArticle queryEscape unmarshal title pfx hg = .ret (a, none) ∧
      a.Title = title ∧ a.Description = desc.getD "" ∧ a.Missing = false ∧
      a.LinkedArticles.length = 0 := by
  have hparse : parseResponse response = .ret (false, desc.getD "", [], 0, none) := by
    rw [parseResponse_first_page hquery hpages]
    rcases hpageid with h | ⟨f, h⟩ <;> cases desc <;>
      simp [parsePage, hmissing, h, hdesc, hlinks]
  refine ⟨⟨0, hparse⟩, ?_⟩
  have hs : ¬ (resp.StatusCode < 200 ∨ resp.StatusCode > 299) := by omega
  refine ⟨Article.mk "" title (desc.getD "") false [] 0, ?_, rfl, rfl, rfl, rfl⟩
  simp [CrawlArticle, hget, hs, hbody, hparse]

/-- Zero-links tolerance on a page entry that has a description and a page id but no
`links` key. -/
theorem zero_links_tolerance_witness :
    (∃ pageID, parseResponse
        [("query", .obj [("pages", .obj [("9", .obj
            [("pageid", .num 9), ("description", .str "a stub")])])])]
      = .ret (false, "a stub", [], pageID, none)) ∧
    ∃ a, CrawlArticle id
        (fun _ =>
          [("query", .obj [("pages", .obj [("9", .obj
              [("pageid", .num 9), ("description", .str "a stub")])])])])
        "Stub" "en" (fun _ => .ok { StatusCode := 204, Body := "" })
      = .ret (a, none) ∧
      a.Title = "Stub" ∧ a.Description = "a stub" ∧ a.Missing = false ∧
      a.LinkedArticles.length = 0 :=
  zero_links_tolerance id _ "Stub" "en" _ { StatusCode := 204, Body := "" } _
    [("pages", .obj [("9", .obj [("pageid", .num 9), ("description", .str "a stub")])])]
    [("pageid", .num 9), ("description", .str "a stub")]
    "9" (some "a stub") rfl rfl rfl rfl (Or.inr ⟨9, rfl⟩) rfl rfl (by decide) rfl

/-- C9 fails on the code. A page entry with `pageid` 1 and no `links` key: `parseResponse`
returns page identifier 0 (the literal `0` of line 102) and `CrawlArticle` builds an
`Article` with `PageID` 0; the same entry with an empty `links` array gives page
identifier 1 (line 116). -/
theorem pageid_lost_without_links :
    parseResponse
        [("query", .obj [("pages", .obj [("1", .obj
            [("pageid", .num 1), ("description", .str "a feline")])])])]
      = .ret (false, "a feline", [], 0, none) ∧
    CrawlArticle id
        (fun _ =>
          [("query", .obj [("pages", .obj [("1", .obj
              [("pageid", .num 1), ("description", .str "a feline")])])])])
        "Cat" "en" (fun _ => .ok { StatusCode := 200, Body := "" })
      = .ret (Article.mk "" "Cat" "a feline" false [] 0, none) ∧
    parseResponse
        [("query", .obj [("pages", .obj [("1", .obj
            [("pageid", .num 1), ("description", .str "a feline"), ("links", .arr [])])])])]
      = .ret (false, "a feline", [], 1, none) :=
  ⟨rfl, rfl, rfl⟩

/-- C10 fails on the code. Each unchecked type assertion of `parseResponse` panics on a
decoded document that has the key with a value of another type: `query` not an object,
`pages` not a mapping, a page entry not an object, `pageid` not a number (no page
identifier 0 is produced), `description` not a string, `links` null or not an array, a link
entry not an object. -/
theorem parseResponse_panics_on_ill_typed_fields :
    parseResponse [("query", .str "x")] = .panic "fetcher.go:77 query is not a map" ∧
    parseResponse [("query", .obj [("pages", .arr [])])]
      = .panic "fetcher.go:83 pages is not a map" ∧
    parseResponse [("query", .obj [("pages", .obj [("1", .num 1)])])]
      = .panic "fetcher.go:84 page is not a map" ∧
    parseResponse [("query", .obj [("pages", .obj [("1", .obj [("pageid", .str "7")])])])]
      = .panic "fetcher.go:88 pageid is not a float64" ∧
    parseResponse [("query", .obj [("pages", .obj [("1", .obj [("description", .num 3)])])])]
      = .panic "fetcher.go:98 description is not a string" ∧
    parseResponse [("query", .obj [("pages", .obj [("1", .obj [("links", .null)])])])]
      = .panic "fetcher.go:105 links is not a slice" ∧
    parseResponse [("query", .obj [("pages", .obj [("1", .obj [("links", .str "x")])])])]
      = .panic "fetcher.go:105 links is not a slice" ∧
    parseResponse
        [("query", .obj [("pages", .obj [("1", .obj [("links", .arr [.str "Animal"])])])])]
      = .panic "fetcher.go:107 link is not a map" ∧
    CrawlArticle id
        (fun _ => [("query", .obj [("pages", .obj [("1", .obj [("pageid", .str "7")])])])])
        "Cat" "en" (fun _ => .ok { StatusCode := 200, Body := "" })
      = .panic "fetcher.go:88 pageid is not a float64" :=
  ⟨rfl, rfl, rfl, rfl, rfl, rfl, rfl, rfl, rfl⟩

/-! ## Properties of the Seen-Set and of the refill pass -/

/-- An integer within the range of `int` is not changed by the wrap-around. -/
theorem wrapInt_of_fits (x : Int) (h : minInt ≤ x ∧ x ≤ maxInt) : wrapInt x = x := by
  unfold minInt maxInt at h
  unfold wrapInt
  omega

/-- A product within the range of `int` is the mathematical product. -/
theorem goMul_of_fits (a b : Int) (h : minInt ≤ a * b ∧ a * b ≤ maxInt) :
    goMul a b = a * b :=
  wrapInt_of_fits _ h

/-- A key marked at instant `now` is reported present at `now`; the other keys are
reported as before. -/
theorem Cache.Get_Set (c : Cache) (now : Int) (k v : String) :
    (c.Set now k).Get now v = (decide (v = k) || c.Get now v) := by
  by_cases hv : v = k
  · subst hv
    by_cases hd : c.defaultExpiration > 0
    · simp [Cache.Get, Cache.Set, List.lookup, hd]
      omega
    · simp [Cache.Get, Cache.Set, List.lookup, hd]
  · have hb : (v == k) = false := by simpa using hv
    simp [Cache.Get, Cache.Set, List.lookup, hv, hb]

/-- A key marked at instant `t` is reported present at every instant up to its expiry
`t + defaultExpiration`. -/
theorem Cache.Get_Set_within (c : Cache) (t now : Int) (k : String)
    (h : now ≤ t + c.defaultExpiration) : (c.Set t k).Get now k = true := by
  by_cases hd : c.defaultExpiration > 0
  · simp [Cache.Get, Cache.Set, List.lookup, hd]
    omega
  · simp [Cache.Get, Cache.Set, List.lookup, hd]

/-- The presence test after a mark, as a function of the key. -/
theorem Cache.Get_Set_fun (c : Cache) (now : Int) (k : String) :
    (c.Set now k).Get now = fun v => decide (v = k) || c.Get now v :=
  funext (Cache.Get_Set c now k)

/-- The URLs admitted by the reference scan were not in the Seen-Set it started from. -/
theorem specAdmitted_not_seen (capacity : Nat) (urls : List String) :
    ∀ (seen : String → Bool) (len : Nat) (u : String),
      u ∈ specAdmitted capacity seen len urls → seen u = false := by
  induction urls with
  | nil => intro seen len u h; simp [specAdmitted] at h
  | cons x rest ih =>
    intro seen len u h
    unfold specAdmitted at h
    split at h
    · exact ih _ _ _ h
    · split at h
      · simp at h
      · rcases List.mem_cons.mp h with rfl | h
        · simpa using ‹¬ seen u = true›
        · have := ih _ _ _ h
          simp at this
          exact this.2

/-- The URLs admitted by the reference scan are candidates of the batch. -/
theorem specAdmitted_subset (capacity : Nat) (urls : List String) :
    ∀ (seen : String → Bool) (len : Nat) (u : String),
      u ∈ specAdmitted capacity seen len urls → u ∈ urls := by
  induction urls with
  | nil => intro seen len u h; simp [specAdmitted] at h
  | cons x rest ih =>
    intro seen len u h
    unfold specAdmitted at h
    split at h
    · exact List.mem_cons_of_mem _ (ih _ _ _ h)
    · split at h
      · simp at h
      · rcases List.mem_cons.mp h with rfl | h
        · exact List.mem_cons_self _ _
        · exact List.mem_cons_of_mem _ (ih _ _ _ h)

/-- The reference scan admits no URL twice. -/
theorem specAdmitted_nodup (capacity : Nat) (urls : List String) :
    ∀ (seen : String → Bool) (len : Nat), (specAdmitted capacity seen len urls).Nodup := by
  induction urls with
  | nil => intro seen len; simp [specAdmitted]
  | cons x rest ih =>
    intro seen len
    unfold specAdmitted
    split
    · exact ih _ _
    · split
      · exact List.nodup_nil
      · refine List.nodup_cons.mpr ⟨?_, ih _ _⟩
        intro hmem
        have := specAdmitted_not_seen capacity rest _ _ _ hmem
        simp at this

/-- The reference scan never admits more URLs than the queue has room for. -/
theorem specAdmitted_length (capacity : Nat) (urls : List String) :
    ∀ (seen : String → Bool) (len : Nat), len ≤ capacity →
      len + (specAdmitted capacity seen len urls).length ≤ capacity := by
  induction urls with
  | nil => intro seen len h; simpa [specAdmitted] using h
  | cons x rest ih =>
    intro seen len h
    unfold specAdmitted
    split
    · exact ih _ _ h
    · split
      · simpa using h
      · have := ih (fun v => decide (v = x) || seen v) (len + 1) (by omega)
        simp only [List.length_cons]
        omega

/-- The loop of `refillQueue` computes the reference scan: it never blocks, appends the
admitted URLs to the queue, marks exactly them, and counts them. -/
theorem refillLoop_eq (now : Int) (capacity : Nat) (urls : List String) :
    ∀ st : RefillLoop,
      (refillLoop now capacity urls st).2 = false ∧
      (refillLoop now capacity urls st).1.queue =
        st.queue ++ specAdmitted capacity (st.seen.Get now) st.queue.length urls ∧
      (∀ v, (refillLoop now capacity urls st).1.seen.Get now v =
        (decide (v ∈ specAdmitted capacity (st.seen.Get now) st.queue.length urls) ||
          st.seen.Get now v)) ∧
      (refillLoop now capacity urls st).1.newURLs =
        st.newURLs + (specAdmitted capacity (st.seen.Get now) st.queue.length urls).length := by
  induction urls with
  | nil => intro st; simp [refillLoop, specAdmitted]
  | cons url rest ih =>
    intro st
    by_cases hseen : st.seen.Get now url = true
    · have h := ih st
      simpa [refillLoop, specAdmitted, hseen] using h
    · by_cases hfull : capacity ≤ st.queue.length
      · simp [refillLoop, specAdmitted, hseen, hfull]
      · have hlt : st.queue.length < capacity := by omega
        have h := ih { queue := st.queue ++ [url], seen := st.seen.Set now url,
                       newURLs := st.newURLs + 1 }
        simp only [List.length_append, List.length_singleton, Cache.Get_Set_fun] at h
        obtain ⟨h1, h2, h3, h4⟩ := h
        simp only [refillLoop, specAdmitted, hseen, hfull, chanSend, hlt, ge_iff_le, if_true,
          if_false, Bool.false_eq_true]
        refine ⟨h1, ?_, ?_, ?_⟩
        · rw [h2]; simp
        · intro v
          rw [h3 v]
          by_cases hv : v = url <;> simp [hv]
        · rw [h4]; simp; ring

/-- What `refillQueue` does once the refill is triggered and the Store Port has answered
with the batch `urls`. -/
theorem refillQueue_ok {σ : Type}
    (NextsToVisit : Int → σ → Except String (List String) × σ) (now : Int) (c : Crawler)
    (database : σ) (urls : List String)
    (htrigger : (c.queue.length : Int) ≤ goMul 80 c.nWorkers)
    (hstore : (NextsToVisit (goMul 100 c.nWorkers) database).1 = .ok urls) :
    refillQueue NextsToVisit now c database =
      { database := (NextsToVisit (goMul 100 c.nWorkers) database).2,
        blocked := (refillLoop now c.queueCap urls
          { queue := c.queue, seen := c.seen, newURLs := 0 }).2,
        crawler := { c with
          queue := (refillLoop now c.queueCap urls
            { queue := c.queue, seen := c.seen, newURLs := 0 }).1.queue,
          seen := (refillLoop now c.queueCap urls
            { queue := c.queue, seen := c.seen, newURLs := 0 }).1.seen },
        newURLs := if (refillLoop now c.queueCap urls
            { queue := c.queue, seen := c.seen, newURLs := 0 }).2 then none
          else some (refillLoop now c.queueCap urls
            { queue := c.queue, seen := c.seen, newURLs := 0 }).1.newURLs,
        err := none } := by
  unfold refillQueue
  rw [if_pos htrigger]
  simp only [hstore]

/-- What `refillQueue` does once the refill is triggered and the Store Port has answered
with an error. -/
theorem refillQueue_error {σ : Type}
    (NextsToVisit : Int → σ → Except String (List String) × σ) (now : Int) (c : Crawler)
    (database : σ) (e : String)
    (htrigger : (c.queue.length : Int) ≤ goMul 80 c.nWorkers)
    (hstore : (NextsToVisit (goMul 100 c.nWorkers) database).1 = .error e) :
    refillQueue NextsToVisit now c database =
      { database := (NextsToVisit (goMul 100 c.nWorkers) database).2,
        blocked := false, crawler := c, newURLs := none, err := some e } := by
  unfold refillQueue
  rw [if_pos htrigger]
  simp only [hstore]

/-- What `refillQueue` does above the low-water mark: nothing. -/
theorem refillQueue_idle {σ : Type}
    (NextsToVisit : Int → σ → Except String (List String) × σ) (now : Int) (c : Crawler)
    (database : σ)
    (hidle : ¬ (c.queue.length : Int) ≤ goMul 80 c.nWorkers) :
    refillQueue NextsToVisit now c database =
      { database := database, blocked := false, crawler := c, newURLs := none,
        err := none } := by
  unfold refillQueue
  rw [if_neg hidle]

/-- C5. Dedup property.  In every crawler state `c`, for a refill pass run at instant `now`
(no expiry during the pass) on whatever batch the Store Port returns: the queue afterwards
is the old queue followed by the list `added` of enqueued URLs; no URL occurs twice in
`added`, however often the batch repeats it; and a URL `u` that the Seen-Set reports
present is skipped by its admission check (the loop continues from the unchanged state)
and does not occur in `added`. -/
theorem refill_never_enqueues_seen {σ : Type}
    (NextsToVisit : Int → σ → Except String (List String) × σ) (now : Int) (c : Crawler)
    (database : σ) :
    ∃ added : List String,
      (refillQueue NextsToVisit now c database).crawler.queue = c.queue ++ added ∧
      added.Nodup ∧
      ∀ u, c.seen.Get now u = true →
        u ∉ added ∧
        ∀ (rest : List String) (n : Int),
          refillLoop now c.queueCap (u :: rest)
              { queue := c.queue, seen := c.seen, newURLs := n }
            = refillLoop now c.queueCap rest
              { queue := c.queue, seen := c.seen, newURLs := n } := by
  have hskip : ∀ u, c.seen.Get now u = true → ∀ (rest : List String) (n : Int),
      refillLoop now c.queueCap (u :: rest) { queue := c.queue, seen := c.seen, newURLs := n }
        = refillLoop now c.queueCap rest { queue := c.queue, seen := c.seen, newURLs := n } := by
    intro u hu rest n
    simp [refillLoop, hu]
  by_cases htrigger : (c.queue.length : Int) ≤ goMul 80 c.nWorkers
  · cases hstore : (NextsToVisit (goMul 100 c.nWorkers) database).1 with
    | error e =>
      rw [refillQueue_error NextsToVisit now c database e htrigger hstore]
      exact ⟨[], by simp, List.nodup_nil, fun u hu => ⟨by simp, hskip u hu⟩⟩
    | ok urls =>
      rw [refillQueue_ok NextsToVisit now c database urls htrigger hstore]
      obtain ⟨_, hq, _, _⟩ := refillLoop_eq now c.queueCap urls
        { queue := c.queue, seen := c.seen, newURLs := 0 }
      refine ⟨specAdmitted c.queueCap (c.seen.Get now) c.queue.length urls, hq,
        specAdmitted_nodup _ _ _ _, fun u hu => ⟨?_, hskip u hu⟩⟩
      intro hmem
      have := specAdmitted_not_seen _ _ _ _ _ hmem
      simp [hu] at this
  · rw [refillQueue_idle NextsToVisit now c database htrigger]
    exact ⟨[], by simp, List.nodup_nil, fun u hu => ⟨by simp, hskip u hu⟩⟩

/-- C6. Capacity invariant under refill.  Whenever `NewCrawler` returns, it has created the
queue empty with capacity `100 * nWorkers`; it returns for every worker count `W ≥ 0` whose
two buffer sizes `100 * W` and `2 * W` are sizes the runtime allocates (and then the
capacity is the mathematical product).  From every crawler state whose queue length is
within the capacity, for every batch returned by the Store Port, `refillQueue` never blocks
in a send (every send finds the queue below capacity), keeps the capacity, and leaves the
queue length within it. -/
theorem refill_respects_capacity :
    (∀ (queueMax resultsMax W : Int) (startURL : String) (c0 : Crawler),
      NewCrawler queueMax resultsMax W startURL = .ret c0 →
        c0.nWorkers = W ∧ c0.queue = [] ∧ (c0.queueCap : Int) = goMul 100 W) ∧
    (∀ (queueMax resultsMax W : Int) (startURL : String), 0 ≤ W → 100 * W ≤ maxInt →
      100 * W ≤ queueMax → 2 * W ≤ resultsMax →
        goMul 100 W = 100 * W ∧ ∃ c0, NewCrawler queueMax resultsMax W startURL = .ret c0) ∧
    (∀ (σ : Type) (NextsToVisit : Int → σ → Except String (List String) × σ) (now : Int)
      (c : Crawler) (database : σ),
      c.queue.length ≤ c.queueCap →
        (refillQueue NextsToVisit now c database).blocked = false ∧
        (refillQueue NextsToVisit now c database).crawler.queueCap = c.queueCap ∧
        (refillQueue NextsToVisit now c database).crawler.nWorkers = c.nWorkers ∧
        (refillQueue NextsToVisit now c database).crawler.queue.length ≤ c.queueCap ∧
        ((c.queueCap : Int) = 100 * c.nWorkers →
          ((refillQueue NextsToVisit now c database).crawler.queue.length : Int)
            ≤ 100 * c.nWorkers)) := by
  refine ⟨?_, ?_, ?_⟩
  · intro queueMax resultsMax W startURL c0 h
    unfold NewCrawler makechan at h
    split at h
    · exact Outcome.noConfusion h
    · next queueCap hq =>
      split at h
      · exact Outcome.noConfusion h
      · next resultsCap hr =>
        injection h with h
        subst h
        refine ⟨rfl, rfl, ?_⟩
        simp only
        split at hq
        · exact Outcome.noConfusion hq
        · next hnot =>
          injection hq with hq
          subst hq
          omega
  · intro queueMax resultsMax W startURL hW hfit hq hr
    have h100 : goMul 100 W = 100 * W :=
      goMul_of_fits _ _ (by unfold minInt; constructor <;> omega)
    have h2 : goMul 2 W = 2 * W :=
      goMul_of_fits _ _ (by unfold minInt; unfold maxInt at hfit ⊢; constructor <;> omega)
    refine ⟨h100, ?_⟩
    unfold NewCrawler makechan
    rw [h100, h2]
    have h1 : ¬ (100 * W < 0 ∨ 100 * W > queueMax) := by omega
    have h3 : ¬ (2 * W < 0 ∨ 2 * W > resultsMax) := by omega
    simp [h1, h3]
  · intro σ NextsToVisit now c database hlen
    have key : (refillQueue NextsToVisit now c database).blocked = false ∧
        (refillQueue NextsToVisit now c database).crawler.queueCap = c.queueCap ∧
        (refillQueue NextsToVisit now c database).crawler.nWorkers = c.nWorkers ∧
        (refillQueue NextsToVisit now c database).crawler.queue.length ≤ c.queueCap := by
      by_cases htrigger : (c.queue.length : Int) ≤ goMul 80 c.nWorkers
      · cases hstore : (NextsToVisit (goMul 100 c.nWorkers) database).1 with
        | error e =>
          rw [refillQueue_error NextsToVisit now c database e htrigger hstore]
          exact ⟨rfl, rfl, rfl, hlen⟩
        | ok urls =>
          rw [refillQueue_ok NextsToVisit now c database urls htrigger hstore]
          obtain ⟨hb, hq, _, _⟩ := refillLoop_eq now c.queueCap urls
            { queue := c.queue, seen := c.seen, newURLs := 0 }
          refine ⟨hb, rfl, rfl, ?_⟩
          simp only [hq, List.length_append]
          exact specAdmitted_length _ _ _ _ hlen
      · rw [refillQueue_idle NextsToVisit now c database htrigger]
        exact ⟨rfl, rfl, rfl, hlen⟩
    obtain ⟨k1, k2, k3, k4⟩ := key
    refine ⟨k1, k2, k3, k4, ?_⟩
    intro hcap
    rw [← hcap]
    exact_mod_cast k4

/-- C7. Low-water refill trigger.  In every crawler state and for every Store Port: when
the queue length is at most `80 * nWorkers`, `refillQueue` calls `NextsToVisit` once, with
limit `100 * nWorkers` (the store is left in the state that call produces, a store that
logs its calls has logged exactly that limit, and an error of the store is the error
returned); above that mark it makes no call (the store and its log are as before), changes
nothing in the crawler and returns `nil`.  The products are Go's `int` products; they are
the mathematical ones for every worker count `W ≥ 1` whose queue capacity `100 * W` fits an
`int`. -/
theorem low_water_refill_trigger {σ : Type}
    (NextsToVisit : Int → σ → Except String (List String) × σ) (now : Int) (c : Crawler)
    (database : σ) (log : List Int) :
    ((c.queue.length : Int) ≤ goMul 80 c.nWorkers →
      (refillQueue (recordingStore NextsToVisit) now c (database, log)).database.2
        = log ++ [goMul 100 c.nWorkers] ∧
      (refillQueue NextsToVisit now c database).database
        = (NextsToVisit (goMul 100 c.nWorkers) database).2 ∧
      ∀ e, (NextsToVisit (goMul 100 c.nWorkers) database).1 = .error e →
        (refillQueue NextsToVisit now c database).err = some e) ∧
    (goMul 80 c.nWorkers < (c.queue.length : Int) →
      (refillQueue (recordingStore NextsToVisit) now c (database, log)).database.2 = log ∧
      (refillQueue NextsToVisit now c database).database = database ∧
      (refillQueue NextsToVisit now c database).crawler = c ∧
      (refillQueue NextsToVisit now c database).err = none ∧
      (refillQueue NextsToVisit now c database).blocked = false) ∧
    (1 ≤ c.nWorkers → 100 * c.nWorkers ≤ maxInt →
      goMul 80 c.nWorkers = 80 * c.nWorkers ∧ goMul 100 c.nWorkers = 100 * c.nWorkers) := by
  have hcalled : ∀ (τ : Type) (N : Int → τ → Except String (List String) × τ) (d : τ),
      (c.queue.length : Int) ≤ goMul 80 c.nWorkers →
      (refillQueue N now c d).database = (N (goMul 100 c.nWorkers) d).2 := by
    intro τ N d h
    cases hstore : (N (goMul 100 c.nWorkers) d).1 with
    | error e => rw [refillQueue_error N now c d e h hstore]
    | ok urls => rw [refillQueue_ok N now c d urls h hstore]
  refine ⟨?_, ?_, ?_⟩
  · intro h
    refine ⟨?_, hcalled σ NextsToVisit database h, ?_⟩
    · rw [hcalled _ (recordingStore NextsToVisit) (database, log) h]
      rfl
    · intro e he
      rw [refillQueue_error NextsToVisit now c database e h he]
  · intro h
    have h' : ¬ ((c.queue.length : Int) ≤ goMul 80 c.nWorkers) := by omega
    rw [refillQueue_idle NextsToVisit now c database h',
      refillQueue_idle (recordingStore NextsToVisit) now c (database, log) h']
    exact ⟨rfl, rfl, rfl, rfl, rfl⟩
  · intro h1 hfit
    unfold maxInt at hfit
    exact ⟨goMul_of_fits _ _ (by unfold minInt maxInt; constructor <;> omega),
      goMul_of_fits _ _ (by unfold minInt maxInt; constructor <;> omega)⟩

/-- C8. Refill admission policy.  When the refill is triggered and the Store Port returns
the candidates `urls` without error, the pass (run at instant `now`, no dequeue and no
expiry meanwhile) returns `nil` without blocking; the queue becomes the old queue followed
by the URLs that the reference scan `specAdmitted` admits, in order; the Seen-Set afterwards
reports present exactly the URLs it reported before and the appended ones; a candidate that
was not seen and was not appended (dropped on a full queue) is still not seen; the number
of appended URLs is what the `new_urls` counter receives; and the store is left in the
state its one call produced. -/
theorem refill_admission_policy {σ : Type}
    (NextsToVisit : Int → σ → Except String (List String) × σ) (now : Int) (c : Crawler)
    (database : σ) (urls : List String)
    (htrigger : (c.queue.length : Int) ≤ goMul 80 c.nWorkers)
    (hstore : (NextsToVisit (goMul 100 c.nWorkers) database).1 = .ok urls) :
    (refillQueue NextsToVisit now c database).blocked = false ∧
    (refillQueue NextsToVisit now c database).err = none ∧
    (refillQueue NextsToVisit now c database).crawler.queue =
      c.queue ++ specAdmitted c.queueCap (c.seen.Get now) c.queue.length urls ∧
    (∀ u, (refillQueue NextsToVisit now c database).crawler.seen.Get now u = true ↔
      (c.seen.Get now u = true ∨
        u ∈ specAdmitted c.queueCap (c.seen.Get now) c.queue.length urls)) ∧
    (∀ u ∈ urls, c.seen.Get now u = false →
      u ∉ specAdmitted c.queueCap (c.seen.Get now) c.queue.length urls →
      (refillQueue NextsToVisit now c database).crawler.seen.Get now u = false) ∧
    (refillQueue NextsToVisit now c database).newURLs =
      some ((specAdmitted c.queueCap (c.seen.Get now) c.queue.length urls).length : Int) ∧
    (refillQueue NextsToVisit now c database).database =
      (NextsToVisit (goMul 100 c.nWorkers) database).2 := by
  obtain ⟨hb, hq, hs, hn⟩ := refillLoop_eq now c.queueCap urls
    { queue := c.queue, seen := c.seen, newURLs := 0 }
  simp only at hb hq hs hn
  rw [refillQueue_ok NextsToVisit now c database urls htrigger hstore]
  refine ⟨hb, rfl, hq, ?_, ?_, ?_, rfl⟩
  · intro u
    simp only [hs u]
    simp [or_comm]
  · intro u _ hu hnot
    simp only [hs u]
    simp [hu, hnot]
  · simp only [hb, hn]
    simp

/-- C5 on a sample pass: `Cat` is in the Seen-Set at instant 10 and heads the batch; the
pass enqueues no `Cat` and no URL twice. -/
theorem refill_never_enqueues_seen_witness :
    (sampleCrawler ["Cat"]).seen.Get 10 "Cat" = true ∧
    ∃ added : List String,
      (refillQueue sampleStore 10 (sampleCrawler ["Cat"]) 0).crawler.queue
        = ["Cat"] ++ added ∧
      added.Nodup ∧ "Cat" ∉ added := by
  obtain ⟨added, hq, hnd, hseen⟩ :=
    refill_never_enqueues_seen sampleStore 10 (sampleCrawler ["Cat"]) 0
  exact ⟨rfl, added, hq, hnd, (hseen "Cat" rfl).1⟩

/-- C6 on sample inputs: one worker gives capacity 100 (on a runtime that allocates
buffers of a million entries), and a pass that starts with 80 queued URLs and is offered 21
admissible candidates ends with 100 queued URLs, unblocked. -/
theorem refill_respects_capacity_witness :
    (goMul 100 1 = 100 * 1 ∧ ∃ c0, NewCrawler 1000000 1000000 1 "Cat" = .ret c0) ∧
    (refillQueue sampleStore 10 (sampleCrawler (List.replicate 80 "Cat")) 0).blocked = false ∧
    (refillQueue sampleStore 10 (sampleCrawler (List.replicate 80 "Cat")) 0).crawler.queue.length
      ≤ 100 :=
  ⟨refill_respects_capacity.2.1 1000000 1000000 1 "Cat" (by decide) (by decide) (by decide)
      (by decide),
   (refill_respects_capacity.2.2 Nat sampleStore 10 (sampleCrawler (List.replicate 80 "Cat")) 0
      (by decide)).1,
   (refill_respects_capacity.2.2 Nat sampleStore 10 (sampleCrawler (List.replicate 80 "Cat")) 0
      (by decide)).2.2.2.1⟩

/-- C7 on the specification's example: with one worker (capacity 100, low-water mark 80) a
queue of 81 URLs leaves the log of the store empty and the store untouched; a queue of 80
URLs leaves one logged call, with limit 100, and the store has served one request. -/
theorem low_water_refill_trigger_witness :
    (refillQueue (recordingStore sampleStore) 10 (sampleCrawler (List.replicate 81 "Cat"))
      (0, [])).database.2 = [] ∧
    (refillQueue sampleStore 10 (sampleCrawler (List.replicate 81 "Cat")) 0).database = 0 ∧
    (refillQueue (recordingStore sampleStore) 10 (sampleCrawler (List.replicate 80 "Cat"))
      (0, [])).database.2 = [100] ∧
    (refillQueue sampleStore 10 (sampleCrawler (List.replicate 80 "Cat")) 0).database = 1 ∧
    goMul 80 1 = 80 * 1 ∧ goMul 100 1 = 100 * 1 :=
  ⟨((low_water_refill_trigger sampleStore 10 (sampleCrawler (List.replicate 81 "Cat")) 0 []).2.1
      (by decide)).1,
   ((low_water_refill_trigger sampleStore 10 (sampleCrawler (List.replicate 81 "Cat")) 0 []).2.1
      (by decide)).2.1,
   ((low_water_refill_trigger sampleStore 10 (sampleCrawler (List.replicate 80 "Cat")) 0 []).1
      (by decide)).1,
   ((low_water_refill_trigger sampleStore 10 (sampleCrawler (List.replicate 80 "Cat")) 0 []).1
      (by decide)).2.1,
   (low_water_refill_trigger sampleStore 10 (sampleCrawler []) 0 []).2.2 (by decide)
      (by decide)⟩

/-- C8 on a sample pass: 80 queued URLs, `Cat` seen; of the batch, `Cat` is skipped, the
second `A01` is skipped, `A01` to `A20` are appended in order and marked, and `A21`, met on
the full queue, is dropped and not marked. -/
theorem refill_admission_policy_witness :
    (refillQueue sampleStore 10 (sampleCrawler (List.replicate 80 "Cat")) 0).crawler.queue =
      List.replicate 80 "Cat" ++
        ["A01", "A02", "A03", "A04", "A05", "A06", "A07", "A08", "A09", "A10",
         "A11", "A12", "A13", "A14", "A15", "A16", "A17", "A18", "A19", "A20"] ∧
    (refillQueue sampleStore 10 (sampleCrawler (List.replicate 80 "Cat")) 0).crawler.seen.Get 10
      "A21" = false ∧
    (refillQueue sampleStore 10 (sampleCrawler (List.replicate 80 "Cat")) 0).newURLs
      = some 20 :=
  ⟨(refill_admission_policy sampleStore 10 (sampleCrawler (List.replicate 80 "Cat")) 0 _
      (by decide) rfl).2.2.1,
   (refill_admission_policy sampleStore 10 (sampleCrawler (List.replicate 80 "Cat")) 0 _
      (by decide) rfl).2.2.2.2.1 "A21" (by decide) rfl (by decide),
   (refill_admission_policy sampleStore 10 (sampleCrawler (List.replicate 80 "Cat")) 0 _
      (by decide) rfl).2.2.2.2.2.1⟩

end Wikidist
